import Mathlib

/-!
# Verification of the batch resume-parsing orchestrator

Shallow embedding of the repository (FastAPI app in `app/main.py`,
workflow stages in `app/helpers.py`, record types in `app/models.py`).

External collaborators (PDF loader, vector store, LLM calls) are modelled
as function parameters returning `Except`, mirroring the async functions
that may raise. Stateful control flow of `process_single_resume` and
`batch_upload_resumes` is embedded as pure functions that also return the
trace of observable events (resource creation, semaphore acquire/release,
stage invocations, cleanup), so that ordering and exactly-once properties
can be stated. The `asyncio.Semaphore` is embedded as a labelled
transition system on counter states.
-/

/-! ## Data model (`app/models.py`) -/

/-- `Education` from `app/models.py`: all fields optional with default `None`. -/
structure Education where
  degree : Option String
  institution : Option String
  year : Option String
deriving DecidableEq, Repr

/-- `Experience` from `app/models.py`: all fields optional with default `None`. -/
structure Experience where
  role : Option String
  company : Option String
  duration : Option String
  description : Option String
deriving DecidableEq, Repr

/-- `ResumeData` from `app/models.py`. -/
structure ResumeData where
  full_name : Option String
  email : Option String
  phone : Option String
  skills : List String
  experience : List Experience
  education : List Education
  summary : Option String
deriving DecidableEq, Repr

/-! ## Serialization of the record format (pydantic `model_dump` /
`model_validate`), for the round-trip property. A JSON-like value tree:
the `ResumeData` schema only needs null, string, array and object nodes. -/

inductive Json where
  | null : Json
  | str : String → Json
  | arr : List Json → Json
  | obj : List (String × Json) → Json

/-- An `Optional[str]` pydantic field serialized: `None ↦ null`, `s ↦ str s`. -/
def optStrToJson : Option String → Json
  | none => Json.null
  | some s => Json.str s

/-- Deserialize an `Optional[str]` field; anything but null/string is a
validation error. -/
def optStrFromJson : Json → Option (Option String)
  | Json.null => some none
  | Json.str s => some (some s)
  | _ => none

def strFromJson : Json → Option String
  | Json.str s => some s
  | _ => none

/-- Deserialize every element of a JSON array, failing if any element fails
(pydantic list validation). -/
def parseListJson (p : Json → Option α) : List Json → Option (List α)
  | [] => some []
  | j :: js =>
    match p j, parseListJson p js with
    | some a, some as => some (a :: as)
    | _, _ => none

/-- Look up a key in a serialized object (python dict access). -/
def lookupField : List (String × Json) → String → Option Json
  | [], _ => none
  | (k, v) :: rest, key => if k = key then some v else lookupField rest key

/-- An optional-string field of an object: missing or null gives the pydantic
default `None`. -/
def optFieldFromJson (fs : List (String × Json)) (k : String) : Option (Option String) :=
  match lookupField fs k with
  | none => some none
  | some j => optStrFromJson j

/-- A list field of an object: missing gives the pydantic `default_factory=list`
default `[]`. -/
def listFieldFromJson (p : Json → Option α) (fs : List (String × Json)) (k : String) :
    Option (List α) :=
  match lookupField fs k with
  | none => some []
  | some (Json.arr js) => parseListJson p js
  | some _ => none

def educationToJson (e : Education) : Json :=
  Json.obj [("degree", optStrToJson e.degree),
            ("institution", optStrToJson e.institution),
            ("year", optStrToJson e.year)]

def educationFromJson : Json → Option Education
  | Json.obj fs =>
    match optFieldFromJson fs "degree", optFieldFromJson fs "institution",
          optFieldFromJson fs "year" with
    | some d, some i, some y => some ⟨d, i, y⟩
    | _, _, _ => none
  | _ => none

def experienceToJson (e : Experience) : Json :=
  Json.obj [("role", optStrToJson e.role),
            ("company", optStrToJson e.company),
            ("duration", optStrToJson e.duration),
            ("description", optStrToJson e.description)]

def experienceFromJson : Json → Option Experience
  | Json.obj fs =>
    match optFieldFromJson fs "role", optFieldFromJson fs "company",
          optFieldFromJson fs "duration", optFieldFromJson fs "description" with
    | some r, some c, some du, some de => some ⟨r, c, du, de⟩
    | _, _, _, _ => none
  | _ => none

def resumeDataToJson (r : ResumeData) : Json :=
  Json.obj [("full_name", optStrToJson r.full_name),
            ("email", optStrToJson r.email),
            ("phone", optStrToJson r.phone),
            ("skills", Json.arr (r.skills.map Json.str)),
            ("experience", Json.arr (r.experience.map experienceToJson)),
            ("education", Json.arr (r.education.map educationToJson)),
            ("summary", optStrToJson r.summary)]

def resumeDataFromJson : Json → Option ResumeData
  | Json.obj fs =>
    match optFieldFromJson fs "full_name", optFieldFromJson fs "email",
          optFieldFromJson fs "phone",
          listFieldFromJson strFromJson fs "skills",
          listFieldFromJson experienceFromJson fs "experience",
          listFieldFromJson educationFromJson fs "education",
          optFieldFromJson fs "summary" with
    | some fn, some em, some ph, some sk, some ex, some ed, some su =>
      some ⟨fn, em, ph, sk, ex, ed, su⟩
    | _, _, _, _, _, _, _ => none
  | _ => none

/-! Round-trip helper lemmas. -/

theorem optStrFromJson_optStrToJson (o : Option String) :
    optStrFromJson (optStrToJson o) = some o := by
  cases o <;> rfl

theorem parseListJson_map (p : Json → Option α) (f : α → Json)
    (hpf : ∀ a, p (f a) = some a) :
    ∀ xs : List α, parseListJson p (xs.map f) = some xs := by
  intro xs
  induction xs with
  | nil => rfl
  | cons a as ih => simp [parseListJson, hpf, ih]

theorem educationFromJson_educationToJson (e : Education) :
    educationFromJson (educationToJson e) = some e := by
  rcases e with ⟨d, i, y⟩
  cases d <;> cases i <;> cases y <;> rfl

theorem experienceFromJson_experienceToJson (e : Experience) :
    experienceFromJson (experienceToJson e) = some e := by
  rcases e with ⟨r, c, du, de⟩
  cases r <;> cases c <;> cases du <;> cases de <;> rfl

/-! ## Job context (`ResumeState` in `app/helpers.py`) and the pipeline of
`process_single_resume` in `app/main.py` -/

/-- `ResumeState` TypedDict from `app/helpers.py`; `parsed_data` starts as
`None` in `process_single_resume`, hence `Option`. -/
structure ResumeState where
  pdf_path : String
  text_chunks : List String
  parsed_data : Option ResumeData
  question : String
  answer : String
deriving DecidableEq, Repr

/-- `CONCURRENCY_LIMIT = 5` from `app/main.py`. -/
def CONCURRENCY_LIMIT : Nat := 5

/-- Python `str.endswith`, used by the filename validation
`file.filename.endswith(".pdf")`. -/
def endswith (s suffix : String) : Bool := suffix.data.isSuffixOf s.data

/-- `temp_path = f"temp_{file.filename}"` from `app/main.py`. -/
def tempPathOf (fname : String) : String := "temp_" ++ fname

/-- The initial state dict built in `process_single_resume`. -/
def initState (temp : String) : ResumeState :=
  { pdf_path := temp, text_chunks := [], parsed_data := none,
    question := "", answer := "" }

/-- Observable events of one job run: temp-file creation, semaphore
acquire/release, the two stage invocations (with the context each stage
receives), and the `finally`-block temp-file removal. -/
inductive Ev where
  | createTemp (path : String)
  | acquireSlot
  | ingestCall (st : ResumeState)
  | parseCall (st : ResumeState)
  | releaseSlot
  | removeTemp (path : String)
deriving DecidableEq, Repr

/-- Outcome of one job: the parsed record, or the `HTTPException` raised
(status code and detail string). -/
inductive Outcome where
  | ok (r : ResumeData)
  | httpError (code : Nat) (detail : String)
deriving DecidableEq, Repr

/-- `state.update(ingest_result)` in `process_single_resume`: the ingest
stage's update carries the new `text_chunks`. -/
def mergeIngest (st : ResumeState) (chunks : List String) : ResumeState :=
  { st with text_chunks := chunks }

/-- The per-stage pattern of `process_single_resume`: call the stage on the
current context; on success merge its update into the context, on failure
(a raised exception) leave the context untouched and surface the failure. -/
def runStage (stage : ResumeState → Except String υ)
    (merge : ResumeState → υ → ResumeState) (st : ResumeState) :
    ResumeState × Except String υ :=
  match stage st with
  | Except.error e => (st, Except.error e)
  | Except.ok u => (merge st u, Except.ok u)

/-- `ingest_pdf` from `app/helpers.py`: load the PDF (`PyPDFLoader`), split
(`RecursiveCharacterTextSplitter`, a pure transformation), store embeddings
(`vector_store.add_documents`), and return the `text_chunks` update. The
loader and the vector store are external collaborators that may fail. -/
def ingest_pdf (load : String → Except String (List String))
    (split : List String → List String)
    (addDocuments : List String → Except String Unit)
    (st : ResumeState) : Except String (List String) :=
  match load st.pdf_path with
  | Except.error e => Except.error e
  | Except.ok pages =>
    let splits := split pages
    match addDocuments splits with
    | Except.error e => Except.error e
    | Except.ok _ => Except.ok splits

/-- `parse_resume` from `app/helpers.py`: join the chunks into a context
string and run the structured-output LLM call (external collaborator). -/
def parse_resume (llmExtract : String → Except String ResumeData)
    (st : ResumeState) : Except String ResumeData :=
  llmExtract (String.intercalate "\n" st.text_chunks)

/-- `process_single_resume` from `app/main.py`, with the two stages as
parameters (in the app they are `ingest_pdf` and `parse_resume` closed over
the collaborators). Returns the outcome and the event trace. Control flow of
the source: filename validation first (reject, nothing else happens); then
the temp file is written; then, inside `try`, the semaphore is acquired, the
stages run in order, the semaphore is released on leaving the `async with`
block, and the `finally` block removes the temp file on every exit path. -/
def process_single_resume (ingest : ResumeState → Except String (List String))
    (parse : ResumeState → Except String ResumeData)
    (fname : String) : Outcome × List Ev :=
  if endswith fname ".pdf" = false then
    (Outcome.httpError 400 ("File " ++ fname ++ " is not a PDF"), [])
  else
    let temp := tempPathOf fname
    let st0 := initState temp
    match ingest st0 with
    | Except.error e =>
      (Outcome.httpError 500 ("Error processing " ++ fname ++ ": " ++ e),
       [Ev.createTemp temp, Ev.acquireSlot, Ev.ingestCall st0,
        Ev.releaseSlot, Ev.removeTemp temp])
    | Except.ok chunks =>
      let st1 := mergeIngest st0 chunks
      match parse st1 with
      | Except.error e =>
        (Outcome.httpError 500 ("Error processing " ++ fname ++ ": " ++ e),
         [Ev.createTemp temp, Ev.acquireSlot, Ev.ingestCall st0,
          Ev.parseCall st1, Ev.releaseSlot, Ev.removeTemp temp])
      | Except.ok r =>
        (Outcome.ok r,
         [Ev.createTemp temp, Ev.acquireSlot, Ev.ingestCall st0,
          Ev.parseCall st1, Ev.releaseSlot, Ev.removeTemp temp])

/-- The per-job results of `asyncio.gather(*tasks, return_exceptions=True)`
in `batch_upload_resumes`: one terminal outcome per input, in input order;
an exception raised by a task is captured in its slot, not propagated. -/
def gather_results (ingest : ResumeState → Except String (List String))
    (parse : ResumeState → Except String ResumeData)
    (files : List String) : List Outcome :=
  files.map fun f => (process_single_resume ingest parse f).1

/-- The result-collection loop of `batch_upload_resumes`: exceptions are
skipped (only logged), successful payloads are appended in order. -/
def collectFinal : List Outcome → List ResumeData
  | [] => []
  | Outcome.ok r :: rest => r :: collectFinal rest
  | Outcome.httpError _ _ :: rest => collectFinal rest

/-- `batch_upload_resumes` from `app/main.py`: reject batches over 100 files
before any work, otherwise run every job, gather all outcomes, and return
only the successful payloads. The second component is the combined event
trace of all jobs (empty when the batch is rejected up front). -/
def batch_upload_resumes (ingest : ResumeState → Except String (List String))
    (parse : ResumeState → Except String ResumeData)
    (files : List String) : Except String (List ResumeData) × List Ev :=
  if 100 < files.length then
    (Except.error "Batch limit exceeded (max 100 files)", [])
  else
    let runs := files.map (process_single_resume ingest parse)
    (Except.ok (collectFinal (runs.map Prod.fst)), (runs.map Prod.snd).flatten)

/-- Number of `finally`-block temp-file removals in a trace. -/
def countRemoveTemp (evs : List Ev) : Nat :=
  evs.countP fun e =>
    match e with
    | Ev.removeTemp _ => true
    | _ => false

/-- The subsequence of stage invocations (ingest/parse calls) of a trace. -/
def stageCalls (evs : List Ev) : List Ev :=
  evs.filter fun e =>
    match e with
    | Ev.ingestCall _ => true
    | Ev.parseCall _ => true
    | _ => false

/-- Success payload of an outcome, `none` for a failure. -/
def okOutcome : Outcome → Option ResumeData
  | Outcome.ok r => some r
  | Outcome.httpError _ _ => none

/-! ## Claim theorems -/

/-- A concrete record used to instantiate witnesses. -/
def sampleResume : ResumeData :=
  { full_name := none, email := none, phone := none, skills := [],
    experience := [], education := [], summary := none }

/-- Claim C9: serializing a `ResumeData` record and deserializing the result
yields a record equal field-for-field to the original — the round-trip is
the identity on the record type. -/
theorem C9_resume_data_round_trip (r : ResumeData) :
    resumeDataFromJson (resumeDataToJson r) = some r := by
  rcases r with ⟨fn, em, ph, sk, ex, ed, su⟩
  simp [resumeDataToJson, resumeDataFromJson, optFieldFromJson, listFieldFromJson,
    lookupField, optStrFromJson_optStrToJson,
    parseListJson_map strFromJson Json.str (fun s => rfl),
    parseListJson_map experienceFromJson experienceToJson experienceFromJson_experienceToJson,
    parseListJson_map educationFromJson educationToJson educationFromJson_educationToJson]

/-- Claim C4: for every job that passes filename validation, the temp file
is created before any stage runs (it is the first event of the trace), and
the `finally`-block removal runs exactly once, as the last event before the
outcome is returned — on success, on stage failure, and on a fault
propagating out of a stage alike. -/
theorem C4_scoped_resource_release (ingest : ResumeState → Except String (List String))
    (parse : ResumeState → Except String ResumeData) (fname : String)
    (h : endswith fname ".pdf" = true) :
    countRemoveTemp (process_single_resume ingest parse fname).2 = 1 ∧
    (process_single_resume ingest parse fname).2.head? =
      some (Ev.createTemp (tempPathOf fname)) ∧
    (process_single_resume ingest parse fname).2.getLast? =
      some (Ev.removeTemp (tempPathOf fname)) := by
  unfold process_single_resume
  rw [h]
  simp only [Bool.true_eq_false, if_false]
  split
  · exact ⟨rfl, rfl, rfl⟩
  · split
    · exact ⟨rfl, rfl, rfl⟩
    · exact ⟨rfl, rfl, rfl⟩

/-- Witness for C4 at a concrete valid filename with succeeding stages. -/
theorem C4_scoped_resource_release_witness :
    countRemoveTemp (process_single_resume (fun _ => Except.ok ["chunk"])
      (fun _ => Except.ok sampleResume) "a.pdf").2 = 1 ∧
    (process_single_resume (fun _ => Except.ok ["chunk"])
      (fun _ => Except.ok sampleResume) "a.pdf").2.head? =
      some (Ev.createTemp (tempPathOf "a.pdf")) ∧
    (process_single_resume (fun _ => Except.ok ["chunk"])
      (fun _ => Except.ok sampleResume) "a.pdf").2.getLast? =
      some (Ev.removeTemp (tempPathOf "a.pdf")) :=
  C4_scoped_resource_release _ _ "a.pdf" (by decide)

/-- Claim C5: every validation rejection is reported before any work starts.
A filename failing the `.pdf` predicate yields the 400 rejection with an
empty event trace — no temp file created, no semaphore slot requested, no
stage collaborator invoked; a batch over the maximum of 100 files yields
the 400 rejection with an empty combined trace — no job starts at all. -/
theorem C5_validation_before_work (ingest : ResumeState → Except String (List String))
    (parse : ResumeState → Except String ResumeData)
    (fname : String) (files : List String) :
    (endswith fname ".pdf" = false →
      process_single_resume ingest parse fname =
        (Outcome.httpError 400 ("File " ++ fname ++ " is not a PDF"), [])) ∧
    (100 < files.length →
      batch_upload_resumes ingest parse files =
        (Except.error "Batch limit exceeded (max 100 files)", [])) := by
  constructor
  · intro h
    unfold process_single_resume
    rw [h]
    rfl
  · intro h
    unfold batch_upload_resumes
    simp [h]

/-- Witness for C5: a `.txt` upload and a 101-file batch are both rejected
with no work performed. -/
theorem C5_validation_before_work_witness :
    process_single_resume (fun _ => Except.ok ["chunk"])
      (fun _ => Except.ok sampleResume) "a.txt" =
      (Outcome.httpError 400 ("File " ++ "a.txt" ++ " is not a PDF"), []) ∧
    batch_upload_resumes (fun _ => Except.ok ["chunk"])
      (fun _ => Except.ok sampleResume) (List.replicate 101 "a.pdf") =
      (Except.error "Batch limit exceeded (max 100 files)", []) :=
  ⟨(C5_validation_before_work (fun _ => Except.ok ["chunk"])
      (fun _ => Except.ok sampleResume) "a.txt" (List.replicate 101 "a.pdf")).1 (by decide),
   (C5_validation_before_work (fun _ => Except.ok ["chunk"])
      (fun _ => Except.ok sampleResume) "a.txt" (List.replicate 101 "a.pdf")).2 (by simp)⟩

/-- Claim C6: for every job the stages run in the declared fixed order.
Ingest is invoked first, on the initial context; if it fails no further
stage runs (the ingest call is the only stage invocation); if it succeeds
its update is merged into the context and parse is invoked exactly once, on
the merged context. -/
theorem C6_stage_order_and_short_circuit
    (ingest : ResumeState → Except String (List String))
    (parse : ResumeState → Except String ResumeData) (fname : String)
    (h : endswith fname ".pdf" = true) :
    (∀ e, ingest (initState (tempPathOf fname)) = Except.error e →
      stageCalls (process_single_resume ingest parse fname).2 =
        [Ev.ingestCall (initState (tempPathOf fname))]) ∧
    (∀ chunks, ingest (initState (tempPathOf fname)) = Except.ok chunks →
      stageCalls (process_single_resume ingest parse fname).2 =
        [Ev.ingestCall (initState (tempPathOf fname)),
         Ev.parseCall (mergeIngest (initState (tempPathOf fname)) chunks)]) := by
  unfold process_single_resume
  rw [h]
  simp only [Bool.true_eq_false, if_false]
  constructor
  · intro e he
    rw [he]
    rfl
  · intro chunks hc
    rw [hc]
    split
    · rename_i e heq
      exact absurd heq (by simp)
    · rename_i pages heq
      injection heq with hpc
      subst hpc
      split <;> rfl

/-- Witness for C6: a failing ingest stops before parse; a succeeding ingest
is followed by parse on the merged context. -/
theorem C6_stage_order_and_short_circuit_witness :
    stageCalls (process_single_resume (fun _ => Except.error "io fault")
      (fun _ => Except.ok sampleResume) "a.pdf").2 =
      [Ev.ingestCall (initState (tempPathOf "a.pdf"))] ∧
    stageCalls (process_single_resume (fun _ => Except.ok ["chunk"])
      (fun _ => Except.ok sampleResume) "a.pdf").2 =
      [Ev.ingestCall (initState (tempPathOf "a.pdf")),
       Ev.parseCall (mergeIngest (initState (tempPathOf "a.pdf")) ["chunk"])] :=
  ⟨(C6_stage_order_and_short_circuit (fun _ => Except.error "io fault")
      (fun _ => Except.ok sampleResume) "a.pdf" (by decide)).1 "io fault" rfl,
   (C6_stage_order_and_short_circuit (fun _ => Except.ok ["chunk"])
      (fun _ => Except.ok sampleResume) "a.pdf" (by decide)).2 ["chunk"] rfl⟩

/-- Claim C7: a failing stage leaves the job context unchanged — the
stage-application step returns the context it was given together with the
failure descriptor, and no merge happens; in particular a failing
`ingest_pdf` (loader or vector-store fault) leaves the context exactly as
it was. -/
theorem C7_stage_failure_frame {υ : Type}
    (stage : ResumeState → Except String υ)
    (merge : ResumeState → υ → ResumeState) (st st2 : ResumeState) (e : String) :
    (runStage stage merge st = (st2, Except.error e) → st2 = st) ∧
    (∀ load split addDocuments,
      ingest_pdf load split addDocuments st = Except.error e →
      runStage (ingest_pdf load split addDocuments) mergeIngest st =
        (st, Except.error e)) := by
  constructor
  · intro hrun
    unfold runStage at hrun
    split at hrun
    · injection hrun with ha hb
      exact ha.symm
    · injection hrun with ha hb
      exact absurd hb (by simp)
  · intro load split2 addDocuments hfail
    unfold runStage
    rw [hfail]

/-- Witness for C7: a loader fault makes `ingest_pdf` fail and the context
passes through the stage application untouched. -/
theorem C7_stage_failure_frame_witness :
    runStage (ingest_pdf (fun _ => Except.error "io fault") id (fun _ => Except.ok ()))
      mergeIngest (initState "t") = (initState "t", Except.error "io fault") :=
  (C7_stage_failure_frame (fun _ => Except.error "io fault") mergeIngest
    (initState "t") (initState "t") "io fault").2
    (fun _ => Except.error "io fault") id (fun _ => Except.ok ()) rfl

/-- An ingest stage that faults exactly on the job whose temp path comes from
the given filename — the injected failing job used in counterexamples and
witnesses. -/
def failOn (bad : String) : ResumeState → Except String (List String) :=
  fun st => if st.pdf_path = tempPathOf bad then Except.error "boom" else Except.ok ["chunk"]

/-- For batches within the size limit, the endpoint returns the
success-filtered collection of the gathered per-job outcomes. -/
theorem batch_upload_resumes_ok (ingest : ResumeState → Except String (List String))
    (parse : ResumeState → Except String ResumeData) (files : List String)
    (h : files.length ≤ 100) :
    (batch_upload_resumes ingest parse files).1 =
      Except.ok (collectFinal (gather_results ingest parse files)) := by
  unfold batch_upload_resumes
  rw [if_neg (by omega)]
  simp only [gather_results, List.map_map]
  rfl

/-- Claim C1 counterexample: the claim says the returned sequence always has
length equal to the number of submitted jobs; on the batch
`["bad.pdf", "good.pdf"]` with the first job's ingest faulting, the endpoint
returns only the one successful record, so the claimed length equality is
false at this input. -/
theorem C1_counterexample :
    ¬ (∀ l, (batch_upload_resumes (failOn "bad.pdf") (fun _ => Except.ok sampleResume)
        ["bad.pdf", "good.pdf"]).1 = Except.ok l →
        l.length = (["bad.pdf", "good.pdf"] : List String).length) := by
  intro hcl
  have h1 := hcl [sampleResume] rfl
  simp at h1

/-- Claim C1 amended: the per-job outcome sequence the orchestrator gathers
has length equal to the number of submitted jobs, in input order, with no
outcome dropped including jobs whose pipeline raised; but the endpoint then
returns only the successful outcomes of that sequence — failed entries are
dropped from the returned list. -/
theorem C1_amended_batch_outcomes (ingest : ResumeState → Except String (List String))
    (parse : ResumeState → Except String ResumeData) (files : List String)
    (h : files.length ≤ 100) :
    (gather_results ingest parse files).length = files.length ∧
    (batch_upload_resumes ingest parse files).1 =
      Except.ok (collectFinal (gather_results ingest parse files)) :=
  ⟨by simp [gather_results], batch_upload_resumes_ok ingest parse files h⟩

/-- Witness for the amended C1 at a two-job batch with one injected failure. -/
theorem C1_amended_batch_outcomes_witness :
    (gather_results (failOn "bad.pdf") (fun _ => Except.ok sampleResume)
      ["bad.pdf", "good.pdf"]).length = (["bad.pdf", "good.pdf"] : List String).length ∧
    (batch_upload_resumes (failOn "bad.pdf") (fun _ => Except.ok sampleResume)
      ["bad.pdf", "good.pdf"]).1 =
      Except.ok (collectFinal (gather_results (failOn "bad.pdf")
        (fun _ => Except.ok sampleResume) ["bad.pdf", "good.pdf"])) :=
  C1_amended_batch_outcomes (failOn "bad.pdf") (fun _ => Except.ok sampleResume)
    ["bad.pdf", "good.pdf"] (by decide)

/-- Claim C2: one job's failure neither cancels nor alters any other job's
outcome. Every job reaches a terminal outcome (the gathered sequence has one
entry per input), and the outcome at a position depends only on the input at
that position: two batches agreeing at position `i` — however the other
entries differ or fail — have the same outcome at `i`. -/
theorem C2_failure_isolation (ingest : ResumeState → Except String (List String))
    (parse : ResumeState → Except String ResumeData)
    (files files2 : List String) (i : Nat)
    (h : files[i]? = files2[i]?) :
    (gather_results ingest parse files).length = files.length ∧
    (gather_results ingest parse files)[i]? =
      (gather_results ingest parse files2)[i]? := by
  constructor
  · simp [gather_results]
  · simp [gather_results, List.getElem?_map, h]

/-- Witness for C2: replacing job 0 by a rejected `.txt` input leaves job 1's
outcome unchanged. -/
theorem C2_failure_isolation_witness :
    (gather_results (failOn "bad.pdf") (fun _ => Except.ok sampleResume)
      ["bad.pdf", "good.pdf"]).length = (["bad.pdf", "good.pdf"] : List String).length ∧
    (gather_results (failOn "bad.pdf") (fun _ => Except.ok sampleResume)
      ["bad.pdf", "good.pdf"])[1]? =
    (gather_results (failOn "bad.pdf") (fun _ => Except.ok sampleResume)
      ["x.txt", "good.pdf"])[1]? :=
  C2_failure_isolation (failOn "bad.pdf") (fun _ => Except.ok sampleResume)
    ["bad.pdf", "good.pdf"] ["x.txt", "good.pdf"] 1 rfl

/-- The endpoint's collection loop is exactly an order-preserving filter of
the successes. -/
theorem collectFinal_eq_filterMap (l : List Outcome) :
    collectFinal l = l.filterMap okOutcome := by
  induction l with
  | nil => rfl
  | cons o rest ih => cases o <;> simp [collectFinal, okOutcome, ih]

/-- Claim C10: the returned list is exactly the order-preserving subsequence
of the gathered per-job results restricted to the successes. -/
theorem C10_successes_subsequence (ingest : ResumeState → Except String (List String))
    (parse : ResumeState → Except String ResumeData) (files : List String)
    (h : files.length ≤ 100) :
    (batch_upload_resumes ingest parse files).1 =
      Except.ok ((gather_results ingest parse files).filterMap okOutcome) := by
  rw [batch_upload_resumes_ok ingest parse files h, collectFinal_eq_filterMap]

/-- Witness for C10 at a two-job batch with one injected failure. -/
theorem C10_successes_subsequence_witness :
    (batch_upload_resumes (failOn "bad.pdf") (fun _ => Except.ok sampleResume)
      ["bad.pdf", "good.pdf"]).1 =
      Except.ok ((gather_results (failOn "bad.pdf") (fun _ => Except.ok sampleResume)
        ["bad.pdf", "good.pdf"]).filterMap okOutcome) :=
  C10_successes_subsequence (failOn "bad.pdf") (fun _ => Except.ok sampleResume)
    ["bad.pdf", "good.pdf"] (by decide)

/-- Claim C8 counterexample: the claim says distinct jobs always have
distinct scoped resources (temp files); in the batch `["a.pdf", "a.pdf"]`
the two distinct jobs 0 and 1 get the same temp path `temp_a.pdf`, because
the path depends only on the submitted filename. -/
theorem C8_counterexample :
    ¬ (∀ i j : Nat, i < 2 → j < 2 → i ≠ j →
      tempPathOf ((["a.pdf", "a.pdf"] : List String).getD i "") ≠
        tempPathOf ((["a.pdf", "a.pdf"] : List String).getD j "")) := by
  intro hcl
  exact hcl 0 1 (by decide) (by decide) (by decide) rfl

/-- Claim C8 amended: jobs with distinct filenames have distinct temp files
(`temp_`-prefixing is injective); two concurrent jobs sharing a filename
share the same temp path, so their resource creation/release can interfere. -/
theorem C8_amended_distinct_filenames (f g : String) (h : f ≠ g) :
    tempPathOf f ≠ tempPathOf g := by
  intro hfg
  apply h
  have hd := congrArg String.data hfg
  simp [tempPathOf, String.data_append] at hd
  cases f
  cases g
  exact congrArg String.mk hd

/-- Witness for the amended C8 at two distinct filenames. -/
theorem C8_amended_distinct_filenames_witness :
    tempPathOf "a.pdf" ≠ tempPathOf "b.pdf" :=
  C8_amended_distinct_filenames "a.pdf" "b.pdf" (by decide)

/-! ## AdmissionGate: the `asyncio.Semaphore(CONCURRENCY_LIMIT)` of
`app/main.py`, as used by `process_single_resume` (`async with semaphore`).
A job acquires one slot, runs its stages, and releases the slot on leaving
the `async with` block. State counts the free slots and the jobs in each
phase; a job only releases after having acquired (the context-manager
discipline of the source), which is exactly what the step relation admits. -/

/-- Gate state: free slots and how many of the `n` jobs are waiting at
`acquire`, currently admitted, or finished. -/
structure SemState where
  avail : Nat
  waiting : Nat
  admitted : Nat
  finished : Nat
deriving DecidableEq, Repr

/-- Observable gate events: an `acquire` returning, a `release`. -/
inductive SemEv where
  | acq
  | rel
deriving DecidableEq, Repr

/-- Initially all `cap` slots are free and all `n` jobs wait at `acquire`. -/
def semInit (cap n : Nat) : SemState :=
  { avail := cap, waiting := n, admitted := 0, finished := 0 }

/-- One interleaving step: `acquire` returns only when a slot is free
(`avail > 0`), moving a waiting job to admitted and taking the slot;
`release` (the `async with` exit) moves an admitted job to finished and
returns the slot. -/
inductive SemStep : SemState → SemEv → SemState → Prop where
  | acq (a w m d : Nat) :
      SemStep ⟨a + 1, w + 1, m, d⟩ SemEv.acq ⟨a, w, m + 1, d⟩
  | rel (a w m d : Nat) :
      SemStep ⟨a, w, m + 1, d⟩ SemEv.rel ⟨a + 1, w, m, d + 1⟩

/-- Reachability with the event trace of the run so far. -/
inductive SemReach (cap n : Nat) : List SemEv → SemState → Prop where
  | init : SemReach cap n [] (semInit cap n)
  | step {tr : List SemEv} {s s2 : SemState} {e : SemEv} :
      SemReach cap n tr s → SemStep s e s2 → SemReach cap n (tr ++ [e]) s2

/-- Inductive invariant of the gate: slots plus admitted jobs equal the
capacity, the job phases partition the `n` jobs, and the trace counts tie
acquires to admitted-or-finished jobs and releases to finished jobs. -/
theorem semReach_invariant {cap n : Nat} {tr : List SemEv} {s : SemState}
    (h : SemReach cap n tr s) :
    s.avail + s.admitted = cap ∧ s.waiting + s.admitted + s.finished = n ∧
    tr.count SemEv.acq = s.admitted + s.finished ∧
    tr.count SemEv.rel = s.finished := by
  induction h with
  | init => simp [semInit]
  | step hreach hstep ih =>
    obtain ⟨h1, h2, h3, h4⟩ := ih
    cases hstep with
    | acq a w m d =>
      simp_all [List.count_append]
      omega
    | rel a w m d =>
      simp_all [List.count_append]
      omega

/-- Claim C3: in every reachable state of the gate (capacity `cap`, fixed at
construction; 5 in the source) with any number `n` of jobs submitted, at
most `cap` jobs hold an admitted slot, the counter stays within
`[0, cap]` (it is a `Nat`, so `0 ≤ avail` holds by type), releases never
outnumber the acquires that returned, and once no job is waiting or
admitted every acquire has been paired with exactly one release. -/
theorem C3_admission_gate_invariant {cap n : Nat} {tr : List SemEv} {s : SemState}
    (h : SemReach cap n tr s) :
    s.admitted ≤ cap ∧ s.avail ≤ cap ∧
    tr.count SemEv.rel ≤ tr.count SemEv.acq ∧
    (s.waiting = 0 → s.admitted = 0 →
      tr.count SemEv.rel = tr.count SemEv.acq) := by
  obtain ⟨h1, h2, h3, h4⟩ := semReach_invariant h
  refine ⟨by omega, by omega, by omega, ?_⟩
  intro hw hm
  omega

/-- A concrete reachable run at the source capacity 5: one job acquires and
releases. -/
theorem semReachExample :
    SemReach CONCURRENCY_LIMIT 1 [SemEv.acq, SemEv.rel]
      { avail := CONCURRENCY_LIMIT, waiting := 0, admitted := 0, finished := 1 } := by
  have h0 : SemReach CONCURRENCY_LIMIT 1 [] (semInit CONCURRENCY_LIMIT 1) :=
    SemReach.init
  have h1 := SemReach.step h0 (SemStep.acq 4 0 0 0)
  have h2 := SemReach.step h1 (SemStep.rel 4 0 0 0)
  exact h2

/-- Witness for C3 at the concrete run of `semReachExample`. -/
theorem C3_admission_gate_invariant_witness :
    (SemState.mk CONCURRENCY_LIMIT 0 0 1).admitted ≤ CONCURRENCY_LIMIT ∧
    (SemState.mk CONCURRENCY_LIMIT 0 0 1).avail ≤ CONCURRENCY_LIMIT ∧
    ([SemEv.acq, SemEv.rel] : List SemEv).count SemEv.rel ≤
      ([SemEv.acq, SemEv.rel] : List SemEv).count SemEv.acq ∧
    ((SemState.mk CONCURRENCY_LIMIT 0 0 1).waiting = 0 →
      (SemState.mk CONCURRENCY_LIMIT 0 0 1).admitted = 0 →
      ([SemEv.acq, SemEv.rel] : List SemEv).count SemEv.rel =
        ([SemEv.acq, SemEv.rel] : List SemEv).count SemEv.acq) :=
  C3_admission_gate_invariant semReachExample
